import Mathlib

/-
Verification of the SSO login client (zhjw.py / example.py):
the login-success classifier `_check_login_success`, the orchestrator
`login` / `_complete_sso_login`, and `get_student_info` /
`_parse_student_info`.  Strings are embedded as `List Char`; Python
`re.search` with the concrete patterns of the source is embedded by
substring scanning (the four marker patterns are plain literals) and by
an explicit position-by-position matcher for the two capturing patterns.
-/

namespace Zhjw

/-- Marker 1 of `_check_login_success`: the page title literal. -/
def titleL : List Char := "教学一体化服务平台".data

/-- Marker 2: the personal-center literal. -/
def personalCenterL : List Char := "个人中心".data

/-- Marker 3: the my-desktop menu literal. -/
def myDesktopL : List Char := "我的桌面".data

/-- Marker 4: the academic-record menu literal. -/
def acadRecordL : List Char := "学籍成绩".data

/-- The literal opening part of pattern 5, `<span class="glyphicon-class">`. -/
def glyphOpenL : List Char := "<span class=\x22glyphicon-class\x22>".data

/-- The literal closing part of pattern 5, `</span>`. -/
def spanCloseL : List Char := "</span>".data

/-- The logout label `退出`. -/
def logoutTextL : List Char := "退出".data

/-- The logout label followed by the closing tag, `退出</span>`. -/
def logoutTailL : List Char := "退出</span>".data

/-- The tail of `logoutTailL` after its first character. -/
def logoutTail2L : List Char := "出</span>".data

/-- A complete logout span element, `<span class="glyphicon-class">退出</span>`. -/
def logoutSpanL : List Char := "<span class=\x22glyphicon-class\x22>退出</span>".data

/-- Python `re.search` with a pattern made only of plain literal characters
succeeds exactly when the literal occurs as a contiguous substring of the
text; this scans every start position from the left. -/
def containsSub (pat : List Char) : List Char → Bool
  | [] => pat.isEmpty
  | c :: cs => pat.isPrefixOf (c :: cs) || containsSub pat cs

/-- The character class `[^<退出]` of pattern 5: any character other than
the three characters `<`, `退`, `出`.  Note that the regex character class
excludes these characters individually; it does not express exclusion of
the two-character string `退出`. -/
def allowedChar (c : Char) : Bool := !(c == '<' || c == '退' || c == '出')

/-- Matching pattern 5, `<span class="glyphicon-class">([^<退出]+)</span>`,
anchored at the start of `s`, returning the captured group.  The greedy
`+` takes the maximal run of class characters; since the class excludes
`<` and `</span>` begins with `<`, backtracking to any shorter run leaves
the next character a non-`<` class character, so the maximal run is the
only viable split: the match succeeds exactly when the maximal run is
non-empty and is immediately followed by `</span>`. -/
def matchNameAt (s : List Char) : Option (List Char) :=
  if glyphOpenL.isPrefixOf s then
    let rest := s.drop glyphOpenL.length
    let run := rest.takeWhile allowedChar
    if !run.isEmpty && spanCloseL.isPrefixOf (rest.drop run.length) then some run
    else none
  else none

/-- `re.search` for pattern 5: try each start position from the left and
return the first captured group, if any. -/
def spanSearch : List Char → Option (List Char)
  | [] => none
  | c :: cs =>
    match matchNameAt (c :: cs) with
    | some r => some r
    | none => spanSearch cs

/-- The shape of an entry of the `patterns` list in `_check_login_success`:
either a plain literal pattern or the capturing name-span pattern. -/
inductive LoginPattern where
  | lit (s : List Char)
  | nameSpan

/-- Whether one pattern of the list matches the page body (one `re.search`
call of the loop in `_check_login_success`). -/
def matchPattern (body : List Char) : LoginPattern → Bool
  | LoginPattern.lit s => containsSub s body
  | LoginPattern.nameSpan => (spanSearch body).isSome

/-- The `patterns` list of `_check_login_success`, in source order. -/
def loginPatterns : List LoginPattern :=
  [LoginPattern.lit titleL, LoginPattern.lit personalCenterL,
   LoginPattern.lit myDesktopL, LoginPattern.lit acadRecordL,
   LoginPattern.nameSpan]

/-- `ZhjwClient._check_login_success`: loop over the patterns, returning
True on the first match and False when none matches. -/
def check_login_success (body : List Char) : Bool :=
  loginPatterns.any (matchPattern body)

/-- An exception, reduced to its message string. -/
abbrev ExnMsg := List Char

/-- An HTTP response as the session exposes it: status code, headers and
body text. -/
structure Response where
  status_code : Nat
  headers : List (List Char × List Char)
  text : List Char

/-- One login run's external world: what `auth_client.get_token` returns
(`none` models Python `None`, `some []` the empty string, both falsy), and
the outcome of each of the three session GETs of `_complete_sso_login`
(redirect URL with ticket, then `sso.jsp`, then `xsMain.jsp`), each either
a response or a raised transport exception. -/
structure LoginEnv where
  tokenResult : Option (List Char)
  get1 : Except ExnMsg Response
  get2 : Except ExnMsg Response
  get3 : Except ExnMsg Response

/-- The observable result of one `login` call: the returned boolean, the
URLs actually GET-ed through the session in order, and the exception
message logged by the `except Exception` handler when it fired. -/
structure LoginRun where
  success : Bool
  getsIssued : List (List Char)
  caught : Option ExnMsg

/-- The fixed `sso_url` of `_complete_sso_login`. -/
def ssoUrlL : List Char := "http://zhjw.qfnu.edu.cn/sso.jsp".data

/-- The fixed `main_url` of `_complete_sso_login`. -/
def mainUrlL : List Char := "http://zhjw.qfnu.edu.cn/jsxsd/framework/xsMain.jsp".data

/-- The body of the `try` block of `_complete_sso_login`: GET the redirect
URL, then `sso.jsp`, then `xsMain.jsp`, each unconditionally after the
previous one returned (status codes are never inspected), then call the
success checker on the final body.  Returns the list of GETs that were
issued together with either the checker's boolean or the first exception
raised inside the block.  The checker is a parameter so that the scope of
the `except Exception` handler over the classifier call is itself a
provable fact; the real run instantiates it with `check_except`. -/
def ssoTryBlock (redirectUrl : List Char) (env : LoginEnv)
    (chk : List Char → Except ExnMsg Bool) :
    List (List Char) × Except ExnMsg Bool :=
  match env.get1 with
  | Except.error e => ([redirectUrl], Except.error e)
  | Except.ok _ =>
    match env.get2 with
    | Except.error e => ([redirectUrl, ssoUrlL], Except.error e)
    | Except.ok _ =>
      match env.get3 with
      | Except.error e => ([redirectUrl, ssoUrlL, mainUrlL], Except.error e)
      | Except.ok r => ([redirectUrl, ssoUrlL, mainUrlL], chk r.text)

/-- `ZhjwClient._complete_sso_login`: run the `try` block; a normal
completion returns the checker's boolean, and any exception raised inside
the block is caught by `except Exception`, logged, and converted to a
False return. -/
def complete_sso_login (redirectUrl : List Char) (env : LoginEnv)
    (chk : List Char → Except ExnMsg Bool) : LoginRun :=
  match ssoTryBlock redirectUrl env chk with
  | (gets, Except.ok b) => { success := b, getsIssued := gets, caught := none }
  | (gets, Except.error e) => { success := false, getsIssued := gets, caught := some e }

/-- The real checker used by `login`: `_check_login_success` is a total
function of the body and raises no exception. -/
def check_except (body : List Char) : Except ExnMsg Bool :=
  Except.ok (check_login_success body)

/-- `ZhjwClient.login`: obtain the authentication token (redirect URL);
if it is falsy (`None` or the empty string) return False at once without
touching the session; otherwise run `_complete_sso_login` on it. -/
def login (env : LoginEnv) : LoginRun :=
  match env.tokenResult with
  | none => { success := false, getsIssued := [], caught := none }
  | some url =>
    if url.isEmpty then { success := false, getsIssued := [], caught := none }
    else complete_sso_login url env check_except

/-- Modelled from the spec: the class `SessionManager` lives in
`utils/session_manager`, which is not under `src/`; per the spec the
Session Carrier is an HTTP client object holding a persistent cookie jar.
A plain Python object of such a class is truthy under Python's default
object truthiness. -/
structure SessionManager where
  cookieJar : List (List Char × List Char)

/-- Python truthiness of the `self.session` attribute: `None` is falsy, a
`SessionManager` instance (a plain object with no custom `__bool__` or
`__len__`) is truthy. -/
def pyTruthySession : Option SessionManager → Bool
  | none => false
  | some _ => true

/-- The `ZhjwClient` state relevant to `get_student_info`: the `session`
attribute and `base_url`, as assigned by `__init__`. -/
structure ZhjwClient where
  session : Option SessionManager
  base_url : List Char

/-- `ZhjwClient.__init__`: always assigns a fresh `SessionManager`
instance to `self.session` and the fixed base URL. -/
def ZhjwClient.init : ZhjwClient :=
  { session := some { cookieJar := [] },
    base_url := "http://zhjw.qfnu.edu.cn".data }

/-- Python `str.strip()`: drop whitespace from both ends. -/
def pyStrip (s : List Char) : List Char :=
  ((s.dropWhile Char.isWhitespace).reverse.dropWhile Char.isWhitespace).reverse

/-- The ASCII apostrophe character. -/
def aposChar : Char := Char.ofNat 39

/-- The literal head of the student-id pattern, `var userid = ` followed
by an apostrophe. -/
def useridOpenL : List Char := "var userid = ".data ++ [aposChar]

/-- The literal tail of the student-id pattern: an apostrophe then `;`. -/
def useridCloseL : List Char := [aposChar] ++ ";".data

/-- Matching the student-id pattern `var userid = '(\d+)';` anchored at
the start of `s`.  As with pattern 5, the greedy digit run is the only
viable split because the character after the capture must be an
apostrophe, which is not a digit. -/
def useridAt (s : List Char) : Option (List Char) :=
  if useridOpenL.isPrefixOf s then
    let rest := s.drop useridOpenL.length
    let run := rest.takeWhile Char.isDigit
    if !run.isEmpty && useridCloseL.isPrefixOf (rest.drop run.length) then some run
    else none
  else none

/-- `re.search` for the student-id pattern. -/
def useridSearch : List Char → Option (List Char)
  | [] => none
  | c :: cs =>
    match useridAt (c :: cs) with
    | some r => some r
    | none => useridSearch cs

/-- The dictionary built by `_parse_student_info`. -/
structure StudentInfo where
  name : Option (List Char)
  student_id : Option (List Char)

/-- `ZhjwClient._parse_student_info`: capture the glyphicon-class span
text, strip it, keep it as the name when non-empty and different from
`退出`; capture the userid digits as the student id. -/
def parse_student_info (html : List Char) : StudentInfo :=
  { name :=
      match spanSearch html with
      | some cap =>
        let n := pyStrip cap
        if !n.isEmpty && !(n == logoutTextL) then some n else none
      | none => none,
    student_id :=
      match useridSearch html with
      | some d => some d
      | none => none }

/-- Which exit `get_student_info` took. -/
inductive GsiExit where
  | guardNotLoggedIn
  | parsed
  | badStatus
  | caughtError
deriving DecidableEq

/-- The external world of one `get_student_info` call: the outcome of the
GET to `xsMain_new.jsp`. -/
structure GsiEnv where
  response : Except ExnMsg Response

/-- The observable result of one `get_student_info` call. -/
structure GsiRun where
  result : Option StudentInfo
  exit : GsiExit

/-- `ZhjwClient.get_student_info`: the `if not self.session` guard, then
the GET inside `try`, then the status-code check and the parse. -/
def get_student_info (c : ZhjwClient) (env : GsiEnv) : GsiRun :=
  if pyTruthySession c.session = false then
    { result := none, exit := GsiExit.guardNotLoggedIn }
  else
    match env.response with
    | Except.error _ => { result := none, exit := GsiExit.caughtError }
    | Except.ok r =>
      if r.status_code == 200 then
        { result := some (parse_student_info r.text), exit := GsiExit.parsed }
      else
        { result := none, exit := GsiExit.badStatus }

/-- The name `张三` of the spec's example. -/
def zhangSanL : List Char := "张三".data

/-- A body whose glyphicon-class span holds the single character `退`. -/
def c2FailBodyL : List Char := "<span class=\x22glyphicon-class\x22>退</span>".data

/-- A body whose glyphicon-class span holds `张三`. -/
def c2NameBodyL : List Char := "<span class=\x22glyphicon-class\x22>张三</span>".data

/-- A body whose glyphicon-class span holds a single space. -/
def c3BodyL : List Char := "<span class=\x22glyphicon-class\x22> </span>".data

/-- Every occurrence of the literal `<span class="glyphicon-class">` in
the body is immediately followed by `退出</span>`: the logout control is
the only glyphicon-class span present.  Checked at every start
position. -/
def logoutOnlySpans : List Char → Bool
  | [] => true
  | c :: cs =>
    (!glyphOpenL.isPrefixOf (c :: cs)
      || logoutTailL.isPrefixOf ((c :: cs).drop glyphOpenL.length))
    && logoutOnlySpans cs

theorem isPrefixOf_append_self (l t : List Char) : l.isPrefixOf (l ++ t) = true := by
  simp

theorem isPrefixOf_self (l : List Char) : l.isPrefixOf l = true := by
  simp

theorem exists_cons_of_isPrefixOf_cons {a : Char} {l m : List Char}
    (h : (a :: l).isPrefixOf m = true) : ∃ m2, m = a :: m2 := by
  rw [List.isPrefixOf_iff_prefix] at h
  obtain ⟨t, ht⟩ := h
  exact ⟨l ++ t, by rw [← ht]; rfl⟩

theorem takeWhile_replicate_space (k : Nat) :
    List.takeWhile allowedChar (List.replicate k ' ' ++ spanCloseL)
      = List.replicate k ' ' := by
  induction k with
  | zero => rfl
  | succ n ih =>
    simp only [List.replicate_succ, List.cons_append, List.takeWhile_cons,
      show allowedChar ' ' = true from rfl, if_true, ih]

theorem matchNameAt_glyph (inner : List Char)
    (hne : inner.isEmpty = false)
    (hrun : (inner ++ spanCloseL).takeWhile allowedChar = inner) :
    matchNameAt (glyphOpenL ++ (inner ++ spanCloseL)) = some inner := by
  simp only [matchNameAt, isPrefixOf_append_self, if_true, List.drop_left,
    hrun, hne, Bool.not_false, Bool.true_and, isPrefixOf_self]

theorem spanSearch_of_matchNameAt {s r : List Char}
    (h : matchNameAt s = some r) : spanSearch s = some r := by
  cases s with
  | nil => simp [show matchNameAt ([] : List Char) = none from rfl] at h
  | cons c cs =>
    unfold spanSearch
    rw [h]

theorem matchNameAt_eq_none_of_logoutTail (s : List Char)
    (h : (!glyphOpenL.isPrefixOf s
          || logoutTailL.isPrefixOf (s.drop glyphOpenL.length)) = true) :
    matchNameAt s = none := by
  cases hp : glyphOpenL.isPrefixOf s with
  | false => simp [matchNameAt, hp]
  | true =>
    rw [hp, Bool.not_true, Bool.false_or] at h
    rw [show logoutTailL = '退' :: logoutTail2L from rfl] at h
    obtain ⟨m2, hm2⟩ := exists_cons_of_isPrefixOf_cons h
    simp [matchNameAt, hp, hm2, show allowedChar '退' = false from rfl]

theorem spanSearch_eq_none_of_logoutOnly (body : List Char)
    (h : logoutOnlySpans body = true) : spanSearch body = none := by
  induction body with
  | nil => rfl
  | cons c cs ih =>
    rw [logoutOnlySpans, Bool.and_eq_true] at h
    obtain ⟨h1, h2⟩ := h
    unfold spanSearch
    rw [matchNameAt_eq_none_of_logoutTail (c :: cs) h1]
    exact ih h2

/-- Claim C2 (code bug evidence): the spec and the code's own comment
(`排除"退出"`, and the explicit `name != "退出"` check in
`_parse_student_info`) intend to exclude only the exact literal `退出`
from the glyphicon-class span capture, but the regex character class
`[^<退出]` excludes the characters `退` and `出` individually: the body
`<span class="glyphicon-class">退</span>`, whose inner text is non-empty
and differs from `退出`, is nevertheless rejected by
`_check_login_success`, while `张三` matches with the name captured as
the claim states. -/
theorem c2_charclass_excludes_chars :
    check_login_success c2FailBodyL = false
    ∧ check_login_success c2NameBodyL = true
    ∧ spanSearch c2NameBodyL = some zhangSanL :=
  ⟨rfl, rfl, rfl⟩

/-- Claim C3 is false as stated: `_check_login_success` performs no
trimming and no post-capture exclusion comparison at all; on a body whose
only potential marker is a glyphicon-class span whose inner text is a
single space, the classifier returns True, although the claim says a
whitespace-only capture must not count as a match. -/
theorem c3_counterexample : check_login_success c3BodyL = true := rfl

/-- Claim C3 (amended): pattern 5's captured text is used untrimmed and
is never compared against `退出` after capture (the exclusion lives in
the regex character class); consequently a body consisting of a
glyphicon-class span whose inner text is any non-empty run of spaces is
accepted as a match by `_check_login_success`. -/
theorem c3_whitespace_capture_is_match (n : Nat) :
    check_login_success
      (glyphOpenL ++ (List.replicate (n + 1) ' ' ++ spanCloseL)) = true := by
  have hne : (List.replicate (n + 1) ' ').isEmpty = false := by
    simp [List.replicate_succ]
  have hm := matchNameAt_glyph (List.replicate (n + 1) ' ') hne
    (takeWhile_replicate_space (n + 1))
  have hs := spanSearch_of_matchNameAt hm
  simp [check_login_success, loginPatterns, matchPattern, hs]

/-- Claim C3 witness: the single-space span body instantiates the amended
statement at n = 0. -/
theorem c3_whitespace_capture_is_match_witness :
    check_login_success
      (glyphOpenL ++ (List.replicate 1 ' ' ++ spanCloseL)) = true :=
  c3_whitespace_capture_is_match 0

/-- Claim C8: any page body containing the literal platform title
`教学一体化服务平台` is classified as a successful login, whatever else
the body contains (the five markers combine as an OR and the title is
checked first). -/
theorem c8_title_sufficient (body : List Char)
    (h : containsSub titleL body = true) :
    check_login_success body = true := by
  simp [check_login_success, loginPatterns, matchPattern, h]

/-- Claim C8 witness: a concrete body containing the title is accepted. -/
theorem c8_title_sufficient_witness : check_login_success titleL = true :=
  c8_title_sufficient titleL rfl

/-- Claim C9: a body that contains none of the four literal markers and
in which every glyphicon-class span is the logout control
`<span class="glyphicon-class">退出</span>` is classified as not logged
in: the logout control is not accepted as proof of authentication. -/
theorem c9_logout_not_accepted (body : List Char)
    (_hmem : containsSub logoutSpanL body = true)
    (h1 : containsSub titleL body = false)
    (h2 : containsSub personalCenterL body = false)
    (h3 : containsSub myDesktopL body = false)
    (h4 : containsSub acadRecordL body = false)
    (h5 : logoutOnlySpans body = true) :
    check_login_success body = false := by
  simp [check_login_success, loginPatterns, matchPattern, h1, h2, h3, h4,
    spanSearch_eq_none_of_logoutOnly body h5]

/-- Claim C9 witness: the exact body of the spec's logout-exclusion test
case is rejected by the classifier. -/
theorem c9_logout_not_accepted_witness :
    check_login_success logoutSpanL = false :=
  c9_logout_not_accepted logoutSpanL rfl rfl rfl rfl rfl rfl

/-- Claim C1: `login` returns True only if `_check_login_success` matched
a marker in the body of the final landing-page GET; whenever the
classifier value on that body is False, the run is non-authenticated. -/
theorem c1_authenticated_requires_marker (env : LoginEnv)
    (h : (login env).success = true) :
    ∃ r, env.get3 = Except.ok r ∧ check_login_success r.text = true := by
  obtain ⟨tok, g1, g2, g3⟩ := env
  cases tok with
  | none => simp [login] at h
  | some u =>
    by_cases hu : u.isEmpty = true
    · simp [login, hu] at h
    · cases g1 with
      | error e => simp [login, complete_sso_login, ssoTryBlock, hu] at h
      | ok r1 =>
        cases g2 with
        | error e => simp [login, complete_sso_login, ssoTryBlock, hu] at h
        | ok r2 =>
          cases g3 with
          | error e => simp [login, complete_sso_login, ssoTryBlock, hu] at h
          | ok r3 =>
            refine ⟨r3, rfl, ?_⟩
            simpa [login, complete_sso_login, ssoTryBlock, check_except, hu]
              using h

/-- Claim C1 witness: a run whose landing page carries the title is
authenticated, and the theorem recovers the matching final body. -/
theorem c1_authenticated_requires_marker_witness :
    ∃ r, (LoginEnv.mk (some [' ']) (Except.ok ⟨302, [], []⟩)
            (Except.ok ⟨200, [], []⟩) (Except.ok ⟨200, [], titleL⟩)).get3
          = Except.ok r
      ∧ check_login_success r.text = true :=
  c1_authenticated_requires_marker
    (LoginEnv.mk (some [' ']) (Except.ok ⟨302, [], []⟩)
      (Except.ok ⟨200, [], []⟩) (Except.ok ⟨200, [], titleL⟩)) rfl

/-- Claim C4: when the credential exchange yields a falsy redirect URL
(Python `None` or the empty string), `login` returns False at once and no
GET at all is issued through the session. -/
theorem c4_empty_token_no_gets (env : LoginEnv)
    (h : env.tokenResult = none ∨ env.tokenResult = some []) :
    login env = { success := false, getsIssued := [], caught := none } := by
  rcases h with h | h <;> simp [login, h]

/-- Claim C4 witness: a run whose credential exchange returns `None`
issues no GET and returns False. -/
theorem c4_empty_token_no_gets_witness :
    login (LoginEnv.mk none (Except.ok ⟨200, [], []⟩)
        (Except.ok ⟨200, [], []⟩) (Except.ok ⟨200, [], []⟩))
      = { success := false, getsIssued := [], caught := none } :=
  c4_empty_token_no_gets _ (Or.inl rfl)

/-- Claim C5 is false as stated: there is no distinct `TransportError`
outcome.  On a run whose ticket-redemption GET raises a transport
exception, `login` returns the very same caller-visible value — the
boolean False — as on a run whose exchanges all succeed but whose landing
page carries no marker, so the caller cannot distinguish the two. -/
theorem c5_counterexample :
    (login (LoginEnv.mk (some [' ']) (Except.error ("timeout".data))
        (Except.ok ⟨200, [], []⟩) (Except.ok ⟨200, [], []⟩))).success
      = (login (LoginEnv.mk (some [' ']) (Except.ok ⟨200, [], []⟩)
          (Except.ok ⟨200, [], []⟩) (Except.ok ⟨200, [], []⟩))).success
    ∧ (login (LoginEnv.mk (some [' ']) (Except.error ("timeout".data))
        (Except.ok ⟨200, [], []⟩) (Except.ok ⟨200, [], []⟩))).success = false :=
  ⟨rfl, rfl⟩

/-- Claim C5 (amended): if any of the three GETs of the redirect chain
raises a transport-level failure, `login` stops — no further GET is
attempted — logs the underlying cause via the `except` handler, and
returns False, the same boolean as a non-authenticated run: the code has
no distinct TransportError outcome visible to the caller. -/
theorem c5_transport_failure_stops (env : LoginEnv) (u : List Char)
    (htok : env.tokenResult = some u) (hne : u.isEmpty = false) :
    (∀ e, env.get1 = Except.error e →
      login env = { success := false, getsIssued := [u], caught := some e })
    ∧ (∀ e r1, env.get1 = Except.ok r1 → env.get2 = Except.error e →
      login env = { success := false, getsIssued := [u, ssoUrlL],
                    caught := some e })
    ∧ (∀ e r1 r2, env.get1 = Except.ok r1 → env.get2 = Except.ok r2 →
        env.get3 = Except.error e →
      login env = { success := false, getsIssued := [u, ssoUrlL, mainUrlL],
                    caught := some e }) := by
  obtain ⟨tok, g1, g2, g3⟩ := env
  cases htok
  refine ⟨?_, ?_, ?_⟩
  · intro e he
    cases he
    simp [login, complete_sso_login, ssoTryBlock, hne]
  · intro e r1 h1 h2
    cases h1
    cases h2
    simp [login, complete_sso_login, ssoTryBlock, hne]
  · intro e r1 r2 h1 h2 h3
    cases h1
    cases h2
    cases h3
    simp [login, complete_sso_login, ssoTryBlock, hne]

/-- Claim C5 witness: a timeout on the ticket-redemption GET makes
`login` return False with the cause logged and only that one GET
issued. -/
theorem c5_transport_failure_stops_witness :
    login (LoginEnv.mk (some [' ']) (Except.error ("t1".data))
        (Except.ok ⟨200, [], []⟩) (Except.ok ⟨200, [], []⟩))
      = { success := false, getsIssued := [[' ']], caught := some ("t1".data) } :=
  (c5_transport_failure_stops _ [' '] rfl rfl).1 _ rfl

/-- Claim C6 is false as stated: the `except Exception` handler of
`_complete_sso_login` lexically encloses the classifier call, so an
exception raised while classifying the final body is caught and converted
to an ordinary False return (with the message logged); it does not escape
to the caller. -/
theorem c6_counterexample :
    complete_sso_login [' ']
        (LoginEnv.mk (some [' ']) (Except.ok ⟨200, [], []⟩)
          (Except.ok ⟨200, [], []⟩) (Except.ok ⟨200, [], []⟩))
        (fun _ => Except.error ("classifier bug".data))
      = { success := false, getsIssued := [[' '], ssoUrlL, mainUrlL],
          caught := some ("classifier bug".data) } := rfl

/-- Claim C6 (amended): the error boundary of `_complete_sso_login` is
not limited to transport failures — any exception raised by the checker
on the final landing-page body is caught by the same `except Exception`
handler and converted to a False return with the cause logged, exactly
like a transport failure. -/
theorem c6_classifier_error_caught (env : LoginEnv) (u : List Char)
    (chk : List Char → Except ExnMsg Bool) (e : ExnMsg)
    (r1 r2 r3 : Response)
    (h1 : env.get1 = Except.ok r1) (h2 : env.get2 = Except.ok r2)
    (h3 : env.get3 = Except.ok r3) (hc : chk r3.text = Except.error e) :
    complete_sso_login u env chk
      = { success := false, getsIssued := [u, ssoUrlL, mainUrlL],
          caught := some e } := by
  obtain ⟨tok, g1, g2, g3⟩ := env
  cases h1
  cases h2
  cases h3
  simp [complete_sso_login, ssoTryBlock, hc]

/-- Claim C6 witness: a concrete run in which the checker raises is
converted to a caught False return. -/
theorem c6_classifier_error_caught_witness :
    complete_sso_login [' ']
        (LoginEnv.mk (some [' ']) (Except.ok ⟨200, [], []⟩)
          (Except.ok ⟨200, [], []⟩) (Except.ok ⟨204, [], [' ']⟩))
        (fun _ => Except.error ("e2".data))
      = { success := false, getsIssued := [[' '], ssoUrlL, mainUrlL],
          caught := some ("e2".data) } :=
  c6_classifier_error_caught _ _ _ _ _ _ _ rfl rfl rfl rfl

/-- Claim C7: whenever the ticket-redemption GET returns without raising,
the SSO-bootstrap GET to `sso.jsp` is issued next, whatever the status
code of the redemption response; and whenever the bootstrap GET also
returns, the landing-page GET to `xsMain.jsp` follows, again whatever the
status codes — the chain never short-circuits on a non-200 response. -/
theorem c7_forced_gets (env : LoginEnv) (u : List Char)
    (chk : List Char → Except ExnMsg Bool) (r1 : Response)
    (h1 : env.get1 = Except.ok r1) :
    (∃ rest, (complete_sso_login u env chk).getsIssued
        = u :: ssoUrlL :: rest)
    ∧ (∀ r2, env.get2 = Except.ok r2 →
        (complete_sso_login u env chk).getsIssued = [u, ssoUrlL, mainUrlL]) := by
  obtain ⟨tok, g1, g2, g3⟩ := env
  cases h1
  constructor
  · cases g2 with
    | error e => exact ⟨[], rfl⟩
    | ok r2 =>
      cases g3 with
      | error e => exact ⟨[mainUrlL], rfl⟩
      | ok r3 =>
        cases hc : chk r3.text with
        | error e => exact ⟨[mainUrlL], by simp [complete_sso_login, ssoTryBlock, hc]⟩
        | ok b => exact ⟨[mainUrlL], by simp [complete_sso_login, ssoTryBlock, hc]⟩
  · intro r2 h2
    cases h2
    cases g3 with
    | error e => rfl
    | ok r3 =>
      cases hc : chk r3.text with
      | error e => simp [complete_sso_login, ssoTryBlock, hc]
      | ok b => simp [complete_sso_login, ssoTryBlock, hc]

/-- Claim C7 witness: with deliberately non-200 intermediate status codes
(500 and 404), all three GETs are still issued in order. -/
theorem c7_forced_gets_witness :
    (complete_sso_login [' ']
        (LoginEnv.mk (some [' ']) (Except.ok ⟨500, [], []⟩)
          (Except.ok ⟨404, [], []⟩) (Except.ok ⟨200, [], []⟩))
        check_except).getsIssued = [[' '], ssoUrlL, mainUrlL] :=
  (c7_forced_gets _ [' '] check_except ⟨500, [], []⟩ rfl).2 ⟨404, [], []⟩ rfl

/-- Claim C10: `__init__` always stores a `SessionManager` instance in
`self.session`, which is truthy, so the `if not self.session` guard of
`get_student_info` is never taken: whatever the HTTP world does — and in
particular before any successful login — the call never exits through the
`请先登录` branch. -/
theorem c10_guard_unreachable (env : GsiEnv) :
    (get_student_info ZhjwClient.init env).exit ≠ GsiExit.guardNotLoggedIn := by
  unfold get_student_info
  rw [show pyTruthySession (ZhjwClient.init).session = true from rfl]
  simp only [Bool.true_eq_false, if_false]
  cases env.response with
  | error e => simp
  | ok r =>
    by_cases hs : r.status_code == 200
    · simp [hs]
    · simp [hs]

/-- Claim C10 witness: a concrete pre-login fetch does not exit through
the not-logged-in guard. -/
theorem c10_guard_unreachable_witness :
    (get_student_info ZhjwClient.init
        (GsiEnv.mk (Except.ok ⟨200, [], []⟩))).exit
      ≠ GsiExit.guardNotLoggedIn :=
  c10_guard_unreachable (GsiEnv.mk (Except.ok ⟨200, [], []⟩))

end Zhjw
